import Mathlib

/-!
Verification of the KANISA `BaseSolver` lifecycle
(`src/kanisa/optim/core/BaseSolver.py`).

The Python class is shallowly embedded: Python's dynamically typed values
become the inductive `PyVal` (floats are modelled as rationals, with a
distinguished constructor for the `float("inf")` sentinel used as the
unbounded `max_stall_iter` default); a `BaseSolver` object becomes an
explicit record of its attributes; each method becomes a Lean function
that returns the updated record, the list of printed diagnostic lines,
and either a normal return value (`Except.ok`) or a raised Python
exception (`Except.error`).  State mutations that happen before a raise
are kept, exactly as in Python, by returning the mutated record alongside
the raised error.
-/

/-- A raised Python exception, identified by its class and message.
`BaseSolver` can raise `TypeError` (implicitly, from `len`/iteration/
comparison on unsuitable values), `ValueError` (explicitly in `compute`)
and `NotImplementedError` (the base `compute` terminal). -/
inductive PyError where
  | typeError (msg : String)
  | valueError (msg : String)
  | notImplementedError (msg : String)
deriving DecidableEq

/-- The Python exception class of an error, the programmatic
discriminator available to an `except` clause (message text is not). -/
def PyError.pyType : PyError → String
  | .typeError _ => "TypeError"
  | .valueError _ => "ValueError"
  | .notImplementedError _ => "NotImplementedError"

/-- Python runtime values as used by `BaseSolver`: `None`, ints, floats
(as rationals, plus the `float("inf")` sentinel), bools, strings,
callables - modelled as total functions from a real vector to a real
scalar, the shape the spec gives objectives and constraints - and
lists/tuples of values. -/
inductive PyVal where
  | noneV
  | intV (n : Int)
  | floatV (q : ℚ)
  | floatInfV
  | boolV (b : Bool)
  | strV (s : String)
  | funV (f : List ℚ → ℚ)
  | listV (xs : List PyVal)
  | tupleV (xs : List PyVal)

namespace PyVal

/-- Python `v is None`. -/
def isNone : PyVal → Bool
  | .noneV => true
  | _ => false

/-- Python `callable(v)`. -/
def isCallable : PyVal → Bool
  | .funV _ => true
  | _ => false

/-- Python `isinstance(v, list)`. -/
def isList : PyVal → Bool
  | .listV _ => true
  | _ => false

/-- Python truthiness, as used by `x or y`. -/
def truthy : PyVal → Bool
  | .noneV => false
  | .intV n => n != 0
  | .floatV q => q != 0
  | .floatInfV => true
  | .boolV b => b
  | .strV s => s != ""
  | .funV _ => true
  | .listV xs => !xs.isEmpty
  | .tupleV xs => !xs.isEmpty

/-- Python `a or b`. -/
def pyOr (a b : PyVal) : PyVal :=
  if a.truthy then a else b

/-- Python `len(v)`: defined on lists, tuples and strings, a `TypeError`
on everything else. -/
def pyLen : PyVal → Except PyError Nat
  | .listV xs => .ok xs.length
  | .tupleV xs => .ok xs.length
  | .strV s => .ok s.length
  | _ => .error (.typeError "object has no len()")

/-- Python iteration `for v in x`: lists and tuples yield their elements,
strings their one-character substrings; anything else raises `TypeError`
at the head of the loop. -/
def pyIter : PyVal → Except PyError (List PyVal)
  | .listV xs => .ok xs
  | .tupleV xs => .ok xs
  | .strV s => .ok (s.toList.map (fun c => .strV (String.mk [c])))
  | _ => .error (.typeError "object is not iterable")

/-- Python call `v(x)` for a vector argument: a `TypeError` unless `v` is
callable. -/
def pyCall (v : PyVal) (x : List ℚ) : Except PyError ℚ :=
  match v with
  | .funV f => .ok (f x)
  | _ => .error (.typeError "object is not callable")

/-- Python `v >= m` against an int literal: defined for numbers and
bools, a `TypeError` otherwise. -/
def pyGEInt (v : PyVal) (m : Int) : Except PyError Bool :=
  match v with
  | .intV n => .ok (m ≤ n)
  | .floatV q => .ok ((m : ℚ) ≤ q)
  | .floatInfV => .ok true
  | .boolV b => .ok (m ≤ (if b then (1 : Int) else 0))
  | _ => .error (.typeError "comparison not supported")

end PyVal

/-- A Python dict with string keys, taken extensionally. -/
def PyDict := String → Option PyVal

/-- The empty dict `\x7b\x7d`. -/
def emptyDict : PyDict := fun _ => none

/-- Python `\x7b**a, **b\x7d`: `b`'s entries override `a`'s. -/
def dictMerge (a b : PyDict) : PyDict :=
  fun k => (b k).orElse (fun _ => a k)

/-- The `BaseSolver.DEFAULTS` dict: default hyperparameters for all solvers.
`max_stall_iter` defaults to `float ("inf")` - no stalling iteration
set - and `seed` to `None`. -/
def DEFAULTS : PyDict := fun k =>
  if k = "max_iter" then some (.intV 200)
  else if k = "max_stall_iter" then some .floatInfV
  else if k = "verbosity" then some (.intV 1)
  else if k = "seed" then some .noneV
  else none

/-- The `BaseSolver.REQUIRED` list: optimisation fields that must be provided. -/
def REQUIRED : List String := ["objective", "bounds"]

/-- A `BaseSolver` object: one field per attribute its `__init__`
assigns (`params`, `max_iter`, `verbosity`, `seed`, `objective`,
`bounds`, `dim`, `ineq_constraints`, `eq_constraints`).  Note that
`__init__` extracts `max_iter`, `verbosity` and `seed` from the merged
params but not `max_stall_iter`, so there is no `max_stall_iter`
attribute - it lives only inside `params`. -/
structure BaseSolver where
  params : PyDict
  max_iter : PyVal
  verbosity : PyVal
  seed : PyVal
  objective : PyVal
  bounds : PyVal
  dim : PyVal
  ineq_constraints : PyVal
  eq_constraints : PyVal

/-- The attribute names `BaseSolver.__init__` assigns on `self`, in
assignment order (source lines 34-46).  This is the set of directly
readable attributes a freshly constructed solver exposes; it mirrors the
fields of the `BaseSolver` structure above. -/
def initAttributes : List String :=
  ["params", "max_iter", "verbosity", "seed",
   "objective", "bounds", "dim", "ineq_constraints", "eq_constraints"]

/-- Constructor `BaseSolver.__init__(hyper_params=None)`: merge the defaults with the
user's hyperparameters (`\x7b**DEFAULTS, **hyper_params\x7d` after
`hyper_params = hyper_params or \x7b\x7d`), extract the commonly used
parameters, and initialise the problem fields to `None`/empty lists. -/
def BaseSolver.init (hyper_params : Option PyDict) : BaseSolver :=
  let hp := hyper_params.getD emptyDict
  let params := dictMerge DEFAULTS hp
  { params := params
    -- these dict lookups cannot fail: DEFAULTS supplies every key
    max_iter := (params "max_iter").getD .noneV
    verbosity := (params "verbosity").getD .noneV
    seed := (params "seed").getD .noneV
    objective := .noneV
    bounds := .noneV
    dim := .noneV
    ineq_constraints := .listV []
    eq_constraints := .listV [] }

/-- The inequality-constraint loop of `check_constraints`: returns
`false` at the first `g` with `g(x) > 0`, raising if some `g` reached is
not callable. -/
def checkIneqLoop : List PyVal → List ℚ → Except PyError Bool
  | [], _ => .ok true
  | g :: gs, x =>
    match g.pyCall x with
    | .error e => .error e
    | .ok v => if 0 < v then .ok false else checkIneqLoop gs x

/-- The equality tolerance `1e-6` of `check_constraints`. -/
def tol : ℚ := 1/1000000

/-- The equality-constraint loop of `check_constraints`: returns `false`
at the first `h` with `|h(x)| > 1e-6`. -/
def checkEqLoop : List PyVal → List ℚ → Except PyError Bool
  | [], _ => .ok true
  | h :: hs, x =>
    match h.pyCall x with
    | .error e => .error e
    | .ok v => if tol < |v| then .ok false else checkEqLoop hs x

/-- Method `BaseSolver.check_constraints(x)`: inequality constraints
`g(x) <= 0` first, then equality constraints `|h(x)| <= 1e-6`; true when
all pass.  The equality loop is only entered once every inequality
constraint has passed, as in the source. -/
def BaseSolver.check_constraints (s : BaseSolver) (x : List ℚ) :
    Except PyError Bool :=
  match s.ineq_constraints.pyIter with
  | .error e => .error e
  | .ok gs =>
    match checkIneqLoop gs x with
    | .error e => .error e
    | .ok false => .ok false
    | .ok true =>
      match s.eq_constraints.pyIter with
      | .error e => .error e
      | .ok hs => checkEqLoop hs x

mutual

/-- Python `repr`/`str` of a value, as interpolated into the printed
build summary (callables shown schematically). -/
def PyVal.reprStr : PyVal → String
  | .noneV => "None"
  | .intV n => toString n
  | .floatV q => toString q
  | .floatInfV => "inf"
  | .boolV b => if b then "True" else "False"
  | .strV s => s
  | .funV _ => "<function>"
  | .listV xs => "[" ++ PyVal.reprList xs ++ "]"
  | .tupleV xs => "(" ++ PyVal.reprList xs ++ ")"

/-- Comma-separated `repr` of the elements of a list value. -/
def PyVal.reprList : List PyVal → String
  | [] => ""
  | [v] => v.reprStr
  | v :: vs => v.reprStr ++ ", " ++ PyVal.reprList vs

end

/-- The `[ERROR]` line printed when required fields are missing. -/
def missingMsg (missing : List String) : String :=
  "[ERROR] Missing required optimisation fields: [" ++
    String.intercalate ", " missing ++ "]"

/-- The lines printed by the build summary (`verbosity >= 1` branch). -/
def buildSummary (s : BaseSolver) (nIneq nEq : Nat) : List String :=
  ["========= KANISA Build Summary =========",
   "Problem Dimension:         " ++ s.dim.reprStr,
   "Max Iterations:            " ++ s.max_iter.reprStr,
   "Inequality Constraints:    " ++ toString nIneq,
   "Equality Constraints:      " ++ toString nEq,
   "Bounds:                    " ++ s.bounds.reprStr,
   "========================================"]

/-- Structural check for one bounds entry:
`isinstance(pair, (list, tuple)) and len(pair) == 2`. -/
def boundPairOk : PyVal → Bool
  | .listV xs => xs.length = 2
  | .tupleV xs => xs.length = 2
  | _ => false

/-- Method `BaseSolver.build(objective, bounds, ineq_constraints=None,
eq_constraints=None)`: required-field check first (returning `False`
without touching state when `objective` or `bounds` is `None`), then -
following the source order - the problem specification is STORED
(`objective`, `bounds`, `ineq_constraints or []`, `eq_constraints or []`,
`dim = len(bounds)`) before the compliance checks run, so a compliance
failure returns `False` with the new values already in place, and a
`bounds` with no `len` raises `TypeError` with the first four fields
already overwritten.  Returns the updated object, the printed lines, and
the returned bool or raised error. -/
def BaseSolver.build (s : BaseSolver)
    (objective bounds ineq_constraints eq_constraints : PyVal) :
    BaseSolver × List String × Except PyError Bool :=
  -- problem_data values for the two optional fields
  let ineqD := ineq_constraints.pyOr (.listV [])
  let eqD := eq_constraints.pyOr (.listV [])
  -- REQUIRED FIELD VALIDATION (REQUIRED = ["objective", "bounds"];
  -- problem_data always holds both keys, so only the None test matters)
  let missing := (if objective.isNone then ["objective"] else []) ++
                 (if bounds.isNone then ["bounds"] else [])
  if missing ≠ [] then
    (s, [missingMsg missing], .ok false)
  else
    -- Store problem specification
    let s1 : BaseSolver :=
      { s with objective := objective, bounds := bounds,
               ineq_constraints := ineqD, eq_constraints := eqD }
    match bounds.pyLen with
    | .error e => (s1, [], .error e)  -- len(bounds) raised
    | .ok n =>
      let s2 : BaseSolver := { s1 with dim := .intV n }
      -- Compliance checks
      if ¬ s2.objective.isCallable then
        (s2, ["[ERROR] Objective function must be callable."], .ok false)
      else if ¬ s2.bounds.isList then
        (s2, ["[ERROR] Bounds must be a list of (lb, ub) pairs."], .ok false)
      else
        match s2.bounds.pyIter with
        | .error e => (s2, [], .error e)
        | .ok pairs =>
          if ¬ pairs.all boundPairOk then
            (s2, ["[ERROR] Each bound must be a tuple/list of (lb, ub)."],
             .ok false)
          else
            match s2.ineq_constraints.pyIter with
            | .error e => (s2, [], .error e)
            | .ok gs =>
              if ¬ gs.all PyVal.isCallable then
                (s2, ["[ERROR] One inequality constraint is not callable."],
                 .ok false)
              else
                match s2.eq_constraints.pyIter with
                | .error e => (s2, [], .error e)
                | .ok hs =>
                  if ¬ hs.all PyVal.isCallable then
                    (s2, ["[ERROR] One equality constraint is not callable."],
                     .ok false)
                  else
                    -- Display summary (if verbosity enabled)
                    match s2.verbosity.pyGEInt 1 with
                    | .error e => (s2, [], .error e)
                    | .ok true =>
                      (s2, buildSummary s2 gs.length hs.length, .ok true)
                    | .ok false => (s2, [], .ok true)

/-- Message of the `ValueError` raised by `compute` when an implicit
rebuild fails. -/
def buildFailedMsg : String := "Build failed: invalid problem specification."

/-- Message of the `ValueError` raised by `compute` when no problem was
ever loaded: a directive to call `build` first. -/
def notLoadedMsg : String :=
  "No optimisation problem loaded.\nCall solver.build() or provide data to solver.compute()."

/-- Message of the `NotImplementedError` raised by the base `compute`. -/
def notImplMsg : String :=
  "Child solver classes must override compute() with algorithm logic."

/-- Method `BaseSolver.compute(objective=None, ...)`: if an objective is passed,
rebuild (raising `ValueError` when the rebuild returns `False`, and
propagating any error the rebuild raised); then raise `ValueError` with a
directive to call `build` if `self.objective` is still `None`; otherwise
the base class raises `NotImplementedError`.  The base method never
returns normally, so the normal-return type is `Unit` (unreachable). -/
def BaseSolver.compute (s : BaseSolver)
    (objective bounds ineq_constraints eq_constraints : PyVal) :
    BaseSolver × List String × Except PyError Unit :=
  -- If the user passed a new optimisation problem, rebuild it
  let rebuilt : BaseSolver × List String × Option PyError :=
    if objective.isNone then (s, [], none)
    else
      match s.build objective bounds ineq_constraints eq_constraints with
      | (s1, out, .error e) => (s1, out, some e)
      | (s1, out, .ok false) => (s1, out, some (.valueError buildFailedMsg))
      | (s1, out, .ok true) => (s1, out, none)
  match rebuilt with
  | (s1, out, some e) => (s1, out, .error e)
  | (s1, out, none) =>
    -- Ensure build() has been executed previously
    if s1.objective.isNone then
      (s1, out, .error (.valueError notLoadedMsg))
    else
      -- Must be implemented by each solver
      (s1, out, .error (.notImplementedError notImplMsg))

/-- A concrete objective, `f(x) = 0`. -/
def obj0 : List ℚ → ℚ := fun _ => 0

/-- A concrete well-formed bounds value, `[(0, 1)]`. -/
def goodBounds : PyVal := .listV [.tupleV [.intV 0, .intV 1]]

/-- A solver constructed with no hyperparameters. -/
def solver0 : BaseSolver := .init none

/-- The state of `solver0` after a successful `build` with `obj0` and `goodBounds`. -/
def solverBuilt : BaseSolver :=
  (solver0.build (.funV obj0) goodBounds .noneV .noneV).1

/-- A concrete hyperparameter dict supplying only `max_iter = 50`. -/
def hpMaxIter50 : PyDict :=
  fun k => if k = "max_iter" then some (.intV 50) else none

/-! ## Helper lemmas -/

/-- Python `len` never raises `ValueError`: its only error is a `TypeError`. -/
theorem pyLen_no_valueError (v : PyVal) (m : String) :
    v.pyLen ≠ .error (.valueError m) := by
  cases v <;> simp [PyVal.pyLen]

/-- Iteration never raises `ValueError`: its only error is a `TypeError`. -/
theorem pyIter_no_valueError (v : PyVal) (m : String) :
    v.pyIter ≠ .error (.valueError m) := by
  cases v <;> simp [PyVal.pyIter]

/-- The `>=` comparison never raises `ValueError`. -/
theorem pyGEInt_no_valueError (v : PyVal) (k : Int) (m : String) :
    v.pyGEInt k ≠ .error (.valueError m) := by
  cases v <;> simp [PyVal.pyGEInt]

/-- A callable value is not `None`. -/
theorem isCallable_isNone_false (v : PyVal) (h : v.isCallable = true) :
    v.isNone = false := by
  cases v <;> simp_all [PyVal.isCallable, PyVal.isNone]

/-- The inequality loop on a list of callables computes the boolean
"every `g(x)` is at most `0`". -/
theorem checkIneqLoop_funV (gs : List (List ℚ → ℚ)) (x : List ℚ) :
    checkIneqLoop (gs.map .funV) x = .ok (decide (∀ g ∈ gs, g x ≤ 0)) := by
  induction gs with
  | nil => simp [checkIneqLoop]
  | cons g gs ih =>
    simp only [List.map_cons, checkIneqLoop, PyVal.pyCall, ih]
    by_cases h : 0 < g x
    · have : ¬ g x ≤ 0 := not_le.mpr h
      simp [h, this]
    · have : g x ≤ 0 := not_lt.mp h
      simp [h, this]

/-- The equality loop on a list of callables computes the boolean
"every `|h(x)|` is within the `1e-6` tolerance". -/
theorem checkEqLoop_funV (hs : List (List ℚ → ℚ)) (x : List ℚ) :
    checkEqLoop (hs.map .funV) x
      = .ok (decide (∀ h ∈ hs, |h x| ≤ tol)) := by
  induction hs with
  | nil => simp [checkEqLoop]
  | cons h hs ih =>
    simp only [List.map_cons, checkEqLoop, PyVal.pyCall, ih]
    split_ifs with hv
    · have hd : decide (∀ p ∈ h :: hs, |p x| ≤ tol) = false :=
        decide_eq_false (fun hall => absurd (hall h (by simp)) (not_le.mpr hv))
      rw [hd]
    · have h1 : |h x| ≤ tol := not_lt.mp hv
      simp [List.forall_mem_cons, h1]

/-- The inequality loop stops with `false` at the first violated
constraint, whatever follows it in the list. -/
theorem checkIneqLoop_violation (pre : List (List ℚ → ℚ))
    (g : List ℚ → ℚ) (rest : List PyVal) (x : List ℚ)
    (hpre : ∀ p ∈ pre, p x ≤ 0) (hg : 0 < g x) :
    checkIneqLoop (pre.map .funV ++ .funV g :: rest) x = .ok false := by
  induction pre with
  | nil => simp [checkIneqLoop, PyVal.pyCall, hg]
  | cons p ps ih =>
    have h1 : ¬ 0 < p x := not_lt.mpr (hpre p (by simp))
    simp only [List.map_cons, List.cons_append, checkIneqLoop,
      PyVal.pyCall, h1, if_false]
    exact ih (fun q hq => hpre q (by simp [hq]))

/-! ## Claims -/

/-- C10: a freshly constructed lifecycle has both constraint lists empty,
so `check_constraints` returns true on every input. -/
theorem C10_fresh_check_constraints_true (hp : Option PyDict) (x : List ℚ) :
    (BaseSolver.init hp).check_constraints x = .ok true := by
  rfl

/-- C2: on stored constraint lists, `check_constraints` evaluates the
inequality constraints first and returns false exactly when some
`g(x) > 0` - short-circuiting, so the equality constraints (whatever
value is stored there) are never touched, nor are the inequality entries
after the violated one - otherwise evaluates the equality constraints,
returning false exactly when some `|h(x)| > 1e-6`, and returns true when
both sets are empty or all constraints hold. -/
theorem C2_check_constraints_spec (s : BaseSolver)
    (gs hs : List (List ℚ → ℚ)) (x : List ℚ) :
    ({ s with ineq_constraints := .listV (gs.map .funV),
              eq_constraints := .listV (hs.map .funV) } :
        BaseSolver).check_constraints x
      = .ok (decide (∀ g ∈ gs, g x ≤ 0) &&
             decide (∀ h ∈ hs, |h x| ≤ tol)) ∧
    ∀ (pre : List (List ℚ → ℚ)) (g : List ℚ → ℚ) (rest : List PyVal)
      (e : PyVal), (∀ p ∈ pre, p x ≤ 0) → 0 < g x →
      ({ s with
          ineq_constraints := .listV (pre.map .funV ++ .funV g :: rest),
          eq_constraints := e } : BaseSolver).check_constraints x
        = .ok false := by
  constructor
  · simp only [BaseSolver.check_constraints, PyVal.pyIter,
      checkIneqLoop_funV, checkEqLoop_funV]
    by_cases hG : ∀ g ∈ gs, g x ≤ 0
    · rw [decide_eq_true hG]
      simp
    · rw [decide_eq_false hG]
      simp
  · intro pre g rest e hpre hg
    simp only [BaseSolver.check_constraints, PyVal.pyIter,
      checkIneqLoop_violation pre g rest x hpre hg]

/-- C2 witness: with a satisfied first constraint and a violated second
one, `check_constraints` returns false even though the stored equality
constraints are not even iterable. -/
theorem C2_witness :
    ({ solver0 with
        ineq_constraints :=
          .listV [.funV (fun _ => -1), .funV (fun l => l.headD 0 - 1)],
        eq_constraints := .intV 7 } : BaseSolver).check_constraints [2]
      = .ok false := by
  have h := (C2_check_constraints_spec solver0 [] [] [2]).2
    [fun _ => -1] (fun l => l.headD 0 - 1) [] (.intV 7)
    (by intro p hp; simp at hp; simp [hp]) (by norm_num)
  simpa using h

/-- Evaluating `xs or []` on a Python list is `xs` itself (an empty list is falsy,
so the falsy branch also yields the empty list). -/
theorem pyOr_listV (xs : List PyVal) :
    (PyVal.listV xs).pyOr (.listV []) = .listV xs := by
  cases xs <;> rfl

/-- Bounds built from pairs pass the per-entry structural check. -/
theorem all_boundPairOk (bpairs : List (PyVal × PyVal)) :
    (bpairs.map fun p => PyVal.tupleV [p.1, p.2]).all boundPairOk = true := by
  simp only [List.all_eq_true, List.mem_map]
  rintro x ⟨p, hp, rfl⟩
  rfl

/-- A list of function values passes the callability check. -/
theorem all_isCallable_funV (gs : List (List ℚ → ℚ)) :
    (gs.map PyVal.funV).all PyVal.isCallable = true := by
  simp [List.all_eq_true, PyVal.isCallable]

/-- Once the required-field check and `len(bounds)` have succeeded,
every exit of `build` - success, compliance failure, or a later raise -
leaves the object with the new `objective`, `bounds`, constraint lists
and `dim` stored. -/
theorem build_state_after (s : BaseSolver) (o b i e : PyVal) (n : Nat)
    (ho : o.isNone = false) (hb : b.isNone = false)
    (hL : b.pyLen = .ok n) :
    (s.build o b i e).1
      = { s with
          objective := o, bounds := b,
          ineq_constraints := i.pyOr (.listV []),
          eq_constraints := e.pyOr (.listV []),
          dim := .intV (n : Int) } := by
  simp only [BaseSolver.build, ho, hb, hL, Bool.false_eq_true, if_false,
    List.append_nil, ne_eq, not_true_eq_false, not_false_eq_true]
  repeat' split
  all_goals rfl

/-- C4: `build` with a callable objective, a list of pairs as bounds and
lists of callables as constraints returns success and stores the
objective, the bounds, both constraint lists and `dim = len(bounds)`. -/
theorem C4_build_success (s : BaseSolver) (v : Int)
    (hv : s.verbosity = .intV v) (f : List ℚ → ℚ)
    (bpairs : List (PyVal × PyVal)) (gs hs : List (List ℚ → ℚ)) :
    ∃ out, s.build (.funV f)
        (.listV (bpairs.map fun p => .tupleV [p.1, p.2]))
        (.listV (gs.map .funV)) (.listV (hs.map .funV))
      = ({ s with
            objective := .funV f,
            bounds := .listV (bpairs.map fun p => .tupleV [p.1, p.2]),
            ineq_constraints := .listV (gs.map .funV),
            eq_constraints := .listV (hs.map .funV),
            dim := .intV (bpairs.length : Int) }, out, .ok true) := by
  simp only [BaseSolver.build, PyVal.isNone, pyOr_listV, PyVal.pyLen,
    PyVal.isCallable, PyVal.isList, PyVal.pyIter, all_boundPairOk,
    all_isCallable_funV, List.length_map, Bool.false_eq_true, if_false,
    List.append_nil, ne_eq, not_true_eq_false, not_false_eq_true,
    Bool.not_true, hv, PyVal.pyGEInt]
  cases hd : decide ((1 : Int) ≤ v) <;> simp [hd]

/-- C4 witness: a successful build with three bounds pairs sets
`dim == 3`. -/
theorem C4_witness :
    ∃ out, solver0.build (.funV obj0)
        (.listV [.tupleV [.intV 0, .intV 1], .tupleV [.intV 2, .intV 3],
                 .tupleV [.intV 4, .intV 5]])
        (.listV []) (.listV [])
      = ({ solver0 with
            objective := .funV obj0,
            bounds := .listV [.tupleV [.intV 0, .intV 1],
                              .tupleV [.intV 2, .intV 3],
                              .tupleV [.intV 4, .intV 5]],
            ineq_constraints := .listV [],
            eq_constraints := .listV [],
            dim := .intV 3 }, out, .ok true) := by
  have h := C4_build_success solver0 1 rfl obj0
    [(.intV 0, .intV 1), (.intV 2, .intV 3), (.intV 4, .intV 5)] [] []
  simpa using h

/-- C1 counterexample: after a valid build, a `build` call with the
non-callable objective `5` fails the compliance check and returns
`False`, yet the stored objective is now `5` rather than the previously
stored callable - a failed rebuild does corrupt the prior valid spec. -/
theorem C1_counterexample :
    (solver0.build (.funV obj0) goodBounds .noneV .noneV).2.2 = .ok true ∧
    solverBuilt.objective = .funV obj0 ∧
    (solverBuilt.build (.intV 5) goodBounds .noneV .noneV).2.2
      = .ok false ∧
    (solverBuilt.build (.intV 5) goodBounds .noneV .noneV).1.objective
      = .intV 5 ∧
    PyVal.intV 5 ≠ .funV obj0 :=
  ⟨rfl, rfl, rfl, rfl, fun h => PyVal.noConfusion h⟩

/-- C1 amended: a `build` call that fails the required-field check
(objective or bounds `None`) returns failure with the stored problem
spec untouched; but a call that passes that check and then fails
type/shape validation returns failure having already overwritten the
stored `objective`, `bounds`, `ineq_constraints`, `eq_constraints` and
`dim` with the new call's values. -/
theorem C1_amended_failed_build_state (s : BaseSolver) (o b i e : PyVal) :
    (o.isNone = true ∨ b.isNone = true →
      (s.build o b i e).1 = s ∧ (s.build o b i e).2.2 = .ok false) ∧
    (o.isNone = false → b.isNone = false →
      (s.build o b i e).2.2 = .ok false →
      (s.build o b i e).1.objective = o ∧
      (s.build o b i e).1.bounds = b ∧
      (s.build o b i e).1.ineq_constraints = i.pyOr (.listV []) ∧
      (s.build o b i e).1.eq_constraints = e.pyOr (.listV []) ∧
      ∃ n, b.pyLen = .ok n ∧ (s.build o b i e).1.dim = .intV (n : Int)) := by
  constructor
  · intro h
    rcases h with h | h
    · simp [BaseSolver.build, h]
    · cases ho : o.isNone <;> simp [BaseSolver.build, h, ho]
  · intro ho hb hret
    cases hL : b.pyLen with
    | error e1 =>
      simp [BaseSolver.build, ho, hb, hL] at hret
    | ok n =>
      rw [build_state_after s o b i e n ho hb hL]
      exact ⟨rfl, rfl, rfl, rfl, n, rfl, rfl⟩

/-- C1 amended witness: the concrete corrupting rebuild of the
counterexample, seen through the amended statement. -/
theorem C1_amended_witness :
    (solverBuilt.build (.intV 5) goodBounds .noneV .noneV).1.objective
      = .intV 5 ∧
    (solverBuilt.build (.intV 5) goodBounds .noneV .noneV).1.bounds
      = goodBounds := by
  have h := (C1_amended_failed_build_state solverBuilt (.intV 5) goodBounds
    .noneV .noneV).2 rfl rfl rfl
  exact ⟨h.1, h.2.1⟩

/-- C3: `build` with a non-sequence `bounds` value such as `42` does not
print a diagnostic and return `False`: `self.dim = len(bounds)` raises
`TypeError` before the bounds format check is reached, with the
objective, bounds and constraint lists already overwritten.  This
contradicts the method's own contract of returning `False` on a
non-compliant problem. -/
theorem C3_nonsequence_bounds_raises :
    solver0.build (.funV obj0) (.intV 42) .noneV .noneV
      = ({ solver0 with
            objective := .funV obj0, bounds := .intV 42,
            ineq_constraints := .listV [], eq_constraints := .listV [] },
         [], .error (.typeError "object has no len()")) := by
  rfl

set_option maxHeartbeats 1600000 in
/-- Method `build` never raises `ValueError`: every error it can raise comes
from `len`, iteration or the verbosity comparison, all `TypeError`s, and
every validation failure is signalled by returning `False`, not by an
exception. -/
theorem build_no_valueError (s : BaseSolver) (o b i e : PyVal)
    (m : String) :
    (s.build o b i e).2.2 ≠ .error (.valueError m) := by
  have hLen := pyLen_no_valueError b m
  have hI1 := pyIter_no_valueError b m
  have hI2 := pyIter_no_valueError (i.pyOr (.listV [])) m
  have hI3 := pyIter_no_valueError (e.pyOr (.listV [])) m
  have hGE := pyGEInt_no_valueError s.verbosity 1 m
  simp only [BaseSolver.build]
  repeat' split
  all_goals simp_all

/-- C5: `compute` with no prior build and no objective argument raises
`ValueError` with a directive to call `build` first, leaving the solver
unchanged; this precondition failure is an exception, while a `build`
validation failure is never a raised `ValueError` (it is the returned
`False`), so the two signals are distinguishable. -/
theorem C5_precondition_failure (hp : Option PyDict) :
    (BaseSolver.init hp).compute .noneV .noneV .noneV .noneV
      = (BaseSolver.init hp, [], .error (.valueError notLoadedMsg)) ∧
    ∀ (s : BaseSolver) (o b i e : PyVal) (m : String),
      (s.build o b i e).2.2 ≠ .error (.valueError m) :=
  ⟨rfl, fun s o b i e m => build_no_valueError s o b i e m⟩

/-- C5 witness: the never-built solver's precondition failure, and a
concrete invalid `build` that does not raise that `ValueError`. -/
theorem C5_witness :
    (BaseSolver.init none).compute .noneV .noneV .noneV .noneV
      = (BaseSolver.init none, [], .error (.valueError notLoadedMsg)) ∧
    (solver0.build (.intV 5) goodBounds .noneV .noneV).2.2
      ≠ .error (.valueError notLoadedMsg) :=
  ⟨(C5_precondition_failure none).1,
   (C5_precondition_failure none).2 solver0 (.intV 5) goodBounds .noneV
     .noneV notLoadedMsg⟩

/-- C6 counterexample: the failure `compute` raises when an implicit
rebuild fails validation and the failure it raises when never built are
both `ValueError`s - the same exception class - so they are not
programmatically distinct: only their human-readable messages differ. -/
theorem C6_counterexample :
    (solver0.compute (.intV 5) goodBounds .noneV .noneV).2.2
      = .error (.valueError buildFailedMsg) ∧
    (solver0.compute .noneV .noneV .noneV .noneV).2.2
      = .error (.valueError notLoadedMsg) ∧
    (PyError.valueError buildFailedMsg).pyType
      = (PyError.valueError notLoadedMsg).pyType :=
  ⟨rfl, rfl, rfl⟩

/-- C6 amended: `compute` with a non-null objective whose implicit build
returns failure raises a `ValueError`, and `compute` on a never-built
solver raises a `ValueError` too: the two failures share the exception
class and are told apart only by their message text. -/
theorem C6_amended_buildfail_same_class (s : BaseSolver) (o b i e : PyVal)
    (ho : o.isNone = false)
    (hfail : (s.build o b i e).2.2 = .ok false) :
    (s.compute o b i e).2.2 = .error (.valueError buildFailedMsg) ∧
    (∀ hp, ((BaseSolver.init hp).compute .noneV .noneV .noneV .noneV).2.2
      = .error (.valueError notLoadedMsg)) ∧
    (PyError.valueError buildFailedMsg).pyType
      = (PyError.valueError notLoadedMsg).pyType ∧
    buildFailedMsg ≠ notLoadedMsg := by
  refine ⟨?_, fun hp => rfl, rfl, by decide⟩
  rcases hB : s.build o b i e with ⟨s1, out, ret⟩
  rw [hB] at hfail
  simp only at hfail
  subst hfail
  simp [BaseSolver.compute, ho, hB]

/-- C6 amended witness: a concrete failing implicit rebuild and the
never-built failure, with their distinct messages. -/
theorem C6_witness :
    (solver0.compute (.intV 5) goodBounds .noneV .noneV).2.2
      = .error (.valueError buildFailedMsg) ∧
    ((BaseSolver.init none).compute .noneV .noneV .noneV .noneV).2.2
      = .error (.valueError notLoadedMsg) ∧
    buildFailedMsg ≠ notLoadedMsg := by
  have h := C6_amended_buildfail_same_class solver0 (.intV 5) goodBounds
    .noneV .noneV rfl rfl
  exact ⟨h.1, h.2.1 none, h.2.2.2⟩

/-- A `build` call that returns `True` leaves a callable objective
stored. -/
theorem build_ok_callable (s : BaseSolver) (o b i e : PyVal)
    (h : (s.build o b i e).2.2 = .ok true) :
    ((s.build o b i e).1.objective).isCallable = true := by
  revert h
  simp only [BaseSolver.build]
  repeat' split
  all_goals intro h
  all_goals simp_all

/-- C7: after a successful build, calling the base `compute` with no
arguments raises `NotImplementedError` - an exception class distinct
from the `ValueError`s of the precondition/build-propagation failures
and from the `TypeError`s of malformed data, so an integration error is
diagnosed differently from a data error. -/
theorem C7_base_compute_not_implemented (s : BaseSolver) (o b i e : PyVal)
    (hok : (s.build o b i e).2.2 = .ok true) :
    (s.build o b i e).1.compute .noneV .noneV .noneV .noneV
      = ((s.build o b i e).1, [],
         .error (.notImplementedError notImplMsg)) ∧
    ∀ m1 m2 : String,
      (PyError.notImplementedError notImplMsg).pyType
        ≠ (PyError.valueError m1).pyType ∧
      (PyError.notImplementedError notImplMsg).pyType
        ≠ (PyError.typeError m2).pyType := by
  constructor
  · have hc := build_ok_callable s o b i e hok
    have hn : ((s.build o b i e).1.objective).isNone = false :=
      isCallable_isNone_false _ hc
    have h0 : PyVal.noneV.isNone = true := rfl
    simp [BaseSolver.compute, h0, hn]
  · intro m1 m2
    constructor
    · show ("NotImplementedError" : String) ≠ "ValueError"
      decide
    · show ("NotImplementedError" : String) ≠ "TypeError"
      decide

/-- C7 witness: the concrete successfully built solver raises
`NotImplementedError` from the base `compute`. -/
theorem C7_witness :
    solverBuilt.compute .noneV .noneV .noneV .noneV
      = (solverBuilt, [], .error (.notImplementedError notImplMsg)) := by
  exact (C7_base_compute_not_implemented solver0 (.funV obj0) goodBounds
    .noneV .noneV rfl).1

/-- The merged params of a constructed solver look up each key in the
user dict first and fall back to `DEFAULTS`. -/
theorem init_params_lookup (hp : PyDict) (k : String) :
    (BaseSolver.init (some hp)).params k
      = (hp k).orElse (fun _ => DEFAULTS k) := rfl

/-- C8: for every configuration, each recognized option of the merged
configuration equals the supplied value at the supplied keys and the
documented default (`max_iter = 200`, `max_stall_iter` unbounded,
`verbosity = 1`, `seed` unset) at the omitted ones. -/
theorem C8_merged_params_defaults (hp : PyDict) :
    ((hp "max_iter" = none →
        (BaseSolver.init (some hp)).params "max_iter"
          = some (.intV 200)) ∧
      ∀ v, hp "max_iter" = some v →
        (BaseSolver.init (some hp)).params "max_iter" = some v) ∧
    ((hp "max_stall_iter" = none →
        (BaseSolver.init (some hp)).params "max_stall_iter"
          = some .floatInfV) ∧
      ∀ v, hp "max_stall_iter" = some v →
        (BaseSolver.init (some hp)).params "max_stall_iter" = some v) ∧
    ((hp "verbosity" = none →
        (BaseSolver.init (some hp)).params "verbosity"
          = some (.intV 1)) ∧
      ∀ v, hp "verbosity" = some v →
        (BaseSolver.init (some hp)).params "verbosity" = some v) ∧
    ((hp "seed" = none →
        (BaseSolver.init (some hp)).params "seed" = some .noneV) ∧
      ∀ v, hp "seed" = some v →
        (BaseSolver.init (some hp)).params "seed" = some v) := by
  refine ⟨⟨?_, ?_⟩, ⟨?_, ?_⟩, ⟨?_, ?_⟩, ⟨?_, ?_⟩⟩ <;>
    first
      | (intro h; rw [init_params_lookup, h]; rfl)
      | (intro v h; rw [init_params_lookup, h]; rfl)

/-- C8 witness: supplying only `max_iter = 50` overrides exactly that
key; the other three keep their documented defaults. -/
theorem C8_witness :
    (BaseSolver.init (some hpMaxIter50)).params "max_iter"
      = some (.intV 50) ∧
    (BaseSolver.init (some hpMaxIter50)).params "max_stall_iter"
      = some .floatInfV ∧
    (BaseSolver.init (some hpMaxIter50)).params "verbosity"
      = some (.intV 1) ∧
    (BaseSolver.init (some hpMaxIter50)).params "seed" = some .noneV := by
  have h := C8_merged_params_defaults hpMaxIter50
  exact ⟨h.1.2 (.intV 50) rfl, h.2.1.1 rfl, h.2.2.1.1 rfl, h.2.2.2.1 rfl⟩

/-- C9 counterexample: `__init__` never assigns a `max_stall_iter`
attribute - it is not among the attributes construction exposes, unlike
`max_iter` and `seed`. -/
theorem C9_counterexample :
    "max_stall_iter" ∉ initAttributes ∧
    "max_iter" ∈ initAttributes ∧ "seed" ∈ initAttributes := by
  decide

/-- C9 amended: construction exposes `objective`, `bounds`, `dim`,
`ineq_constraints`, `eq_constraints`, `max_iter` and `seed` as direct
attributes, but not `max_stall_iter`: that option is readable only
through the merged `params` mapping, where it does default to the
unbounded sentinel when not supplied. -/
theorem C9_amended_attribute_access :
    "max_stall_iter" ∉ initAttributes ∧
    (∀ a ∈ ["objective", "bounds", "dim", "ineq_constraints",
            "eq_constraints", "max_iter", "seed"], a ∈ initAttributes) ∧
    (∀ hp : PyDict, hp "max_stall_iter" = none →
      (BaseSolver.init (some hp)).params "max_stall_iter"
        = some .floatInfV) ∧
    (BaseSolver.init none).params "max_stall_iter" = some .floatInfV := by
  refine ⟨by decide, by decide, ?_, rfl⟩
  intro hp h
  rw [init_params_lookup, h]
  rfl

/-- C9 amended witness: a configuration that omits `max_stall_iter`
gets the unbounded sentinel in `params`. -/
theorem C9_witness :
    (BaseSolver.init (some hpMaxIter50)).params "max_stall_iter"
      = some .floatInfV :=
  C9_amended_attribute_access.2.2.1 hpMaxIter50 rfl
